import Mathlib

/-!
# Emergency robot control panel

A shallow embedding of `static/controls.js` and `static/app.js`: the module-level
variables and the parts of the page the scripts read and write form a `State`,
every listener and every function a button calls is a `Handler` that returns the
next state together with the ordered list of what it did to the outside
(`Effect`: requests, dialogs, console output and calls of the two highlight
routines).
-/

namespace EmergencyRobot

/-! ## Data -/

/-- The two values `currentMode` ever holds (`"MANUAL"` at start, then what
`toggleMode` assigns). -/
inductive Mode where
  | MANUAL
  | IDLE
deriving DecidableEq, Repr

/-- The string a mode is in the script. -/
def Mode.name : Mode → String
  | .MANUAL => "MANUAL"
  | .IDLE => "IDLE"

/-- The values of `keyMap` and the keys of `arrowMap`. -/
inductive Direction where
  | FORWARD
  | BACK
  | LEFT
  | RIGHT
deriving DecidableEq, Repr

/-- The string a direction is in the script. -/
def Direction.name : Direction → String
  | .FORWARD => "FORWARD"
  | .BACK => "BACK"
  | .LEFT => "LEFT"
  | .RIGHT => "RIGHT"

/-- The `key` attribute of a keyboard event: any string. -/
structure Key where
  val : String
deriving DecidableEq

/-- The entries of the `keyMap` literal, in source order. -/
def keyMapEntries : List (String × Direction) :=
  [("w", .FORWARD), ("ArrowUp", .FORWARD),
   ("s", .BACK), ("ArrowDown", .BACK),
   ("a", .LEFT), ("ArrowLeft", .LEFT),
   ("d", .RIGHT), ("ArrowRight", .RIGHT)]

/-- The names `keyMap`, an object literal, inherits from `Object.prototype`: the
lookup `keyMap[name]` with one of them finds the inherited member (a function,
for `__proto__` the prototype object), which is truthy. -/
def inheritedNames : List String :=
  ["constructor", "hasOwnProperty", "isPrototypeOf", "propertyIsEnumerable",
   "toLocaleString", "toString", "valueOf", "__proto__", "__defineGetter__",
   "__defineSetter__", "__lookupGetter__", "__lookupSetter__"]

/-- What a lookup in `keyMap` finds: the direction of an entry of the literal, or
the member inherited under `name`. -/
inductive Member where
  | direction (dir : Direction)
  | inherited (name : String)
deriving DecidableEq, Repr

/-- The lookup `keyMap[e.key]`: an entry of the literal first, then an inherited
member; `none` is `undefined`. -/
def keyMap (key : Key) : Option Member :=
  match keyMapEntries.lookup key.val with
  | some dir => some (Member.direction dir)
  | none => if key.val ∈ inheritedNames then some (Member.inherited key.val) else none

/-- The eight keys of the key-to-direction mapping. -/
def mappedKeys : List String :=
  ["w", "s", "a", "d", "ArrowUp", "ArrowDown", "ArrowLeft", "ArrowRight"]

/-- Modelled from the spec: the page markup is not among the sources. The page
has one arrow button per direction, each of class `arrow` and of the class
`arrowMap` gives its direction (`.up` for FORWARD, `.down` for BACK, `.left` for
LEFT, `.right` for RIGHT). A field is true when that button carries the class
`active`, the highlight. -/
structure Arrows where
  up : Bool
  down : Bool
  left : Bool
  right : Bool
deriving DecidableEq, Repr

/-- Whether the button `document.querySelector(arrowMap[dir])` is highlighted. -/
def Arrows.active (a : Arrows) : Direction → Bool
  | .FORWARD => a.up
  | .BACK => a.down
  | .LEFT => a.left
  | .RIGHT => a.right

/-- The effect of `classList.add("active")` on the button of `dir`. -/
def Arrows.add (a : Arrows) : Direction → Arrows
  | .FORWARD => { a with up := true }
  | .BACK => { a with down := true }
  | .LEFT => { a with left := true }
  | .RIGHT => { a with right := true }

/-- The effect of `classList.remove("active")` on every `.arrow`. -/
def Arrows.cleared : Arrows := ⟨false, false, false, false⟩

/-- The directions whose arrow is highlighted. -/
def Arrows.highlighted (a : Arrows) : List Direction :=
  [Direction.FORWARD, .BACK, .LEFT, .RIGHT].filter a.active

/-- A JavaScript number, named the way `Number::toString` names it. A finite
nonzero number is `finite negative s e`: the sign, and the shortest decimal
`s × 10 ^ e` that reads back as the number (`s` without a trailing zero; 45 is
`45 × 10 ^ 0`, 30.5 is `305 × 10 ^ -1`, 10 ^ 21 is `1 × 10 ^ 21`). Every number
has exactly one such name; a triple that is no number's shortest decimal names no
number, and the functions below are total on it all the same. The decimal is what
the number prints as, and it lies on the same side of a constant that is its own
shortest decimal, such as 30, as the number itself, because reading a decimal as
a number is monotone. `zero` stands for both zeros, which print and compare
alike. -/
inductive JsNumber where
  | nan
  | infinity (negative : Bool)
  | zero
  | finite (negative : Bool) (s : Nat) (e : Int) (shortest : s % 10 ≠ 0)
deriving DecidableEq

/-- The rational a finite number is named by; `none` for `NaN` and the
infinities. -/
def JsNumber.value : JsNumber → Option ℚ
  | .zero => some 0
  | .finite negative s e _ => some ((if negative then -1 else 1) * (s : ℚ) * (10 : ℚ) ^ e)
  | _ => none

/-- The comparison `x > c` of a number with a constant that is its own shortest
decimal: false for `NaN`, true for `Infinity`, false for `-Infinity`. -/
def JsNumber.gt (x : JsNumber) (c : ℚ) : Bool :=
  match x with
  | .nan => false
  | .infinity negative => !negative
  | .zero => decide ((0 : ℚ) > c)
  | .finite negative s e _ =>
    decide ((if negative then -1 else 1) * (s : ℚ) * (10 : ℚ) ^ e > c)

/-- The text of a positive finite number (`Number::toString`, radix 10): with `k`
the number of digits of `s` and `n = e + k`, plain digits when `-5 ≤ n ≤ 21`,
the exponent form otherwise. -/
def positiveToString (s : Nat) (e : Int) : String :=
  let ds := Nat.toDigits 10 s
  let k : Int := ds.length
  let n : Int := e + k
  if -5 ≤ n ∧ n ≤ 21 then
    if k ≤ n then String.mk (ds ++ List.replicate (n - k).toNat '0')
    else if 0 < n then String.mk (ds.take n.toNat ++ '.' :: ds.drop n.toNat)
    else String.mk ('0' :: '.' :: (List.replicate (-n).toNat '0' ++ ds))
  else
    String.mk (ds.take 1 ++ (if ds.length = 1 then [] else '.' :: ds.drop 1)) ++ "e" ++
      (if n < 0 then "-" else "+") ++ toString (n - 1).natAbs

/-- The text of a number (`Number::toString`, radix 10). -/
def numberToString : JsNumber → String
  | .nan => "NaN"
  | .infinity negative => if negative then "-Infinity" else "Infinity"
  | .zero => "0"
  | .finite negative s e _ =>
    if negative then "-" ++ positiveToString s e else positiveToString s e

/-- A status tile (`stat-fire`, `stat-gas`, `stat-vibe`, `stat-audio`): the text of
its `.status-val` and whether it carries the class `alert-active`. -/
structure StatusEl where
  text : String
  alertActive : Bool
deriving DecidableEq, Repr

/-- One reading of `/sensor_data`, the fields `updateSensors` uses. -/
structure SensorData where
  fire : Bool
  gas_level : JsNumber
  vibration : Bool
  violence : Bool
deriving DecidableEq

/-- The parts of the page the scripts read or write. -/
structure Dom where
  /-- The arrow buttons. -/
  arrows : Arrows
  /-- Whether `document.activeElement.tagName === "INPUT"`. -/
  focusInput : Bool
  /-- The `value` of `speaker-input`. -/
  speakerInput : String
  /-- The `innerText` of `mode-text`. -/
  modeText : String
  /-- The `className` of `mode-text`. -/
  modeClass : String
  /-- Whether `record-btn` carries the class `recording`. -/
  recordActive : Bool
  /-- The `innerText` of `record-btn`. -/
  recordText : String
  /-- The `style.boxShadow` of `light-btn`. -/
  lightShadow : String
  /-- Whether `comms-panel` carries the class `hidden`. -/
  commsHidden : Bool
  statFire : StatusEl
  statGas : StatusEl
  statVibe : StatusEl
  statAudio : StatusEl
  /-- Whether `critical-alert` carries the class `hidden`. -/
  criticalHidden : Bool
  /-- The `innerText` of `status` (written by `app.js`). -/
  statusText : String
deriving DecidableEq

/-- The module-level variables of `controls.js` and the page. -/
structure State where
  activeKey : Option Key
  currentMode : Mode
  lightsOn : Bool
  isRecording : Bool
  medKitOpened : Bool
  dom : Dom
deriving DecidableEq

/-- The variables as the script initialises them, over a page `dom`. -/
def State.initial (dom : Dom) : State :=
  { activeKey := none, currentMode := .MANUAL, lightsOn := false,
    isRecording := false, medKitOpened := false, dom := dom }

/-- A value inside a request body. -/
inductive JsonValue where
  | str (s : String)
  | bool (b : Bool)
  | emptyObject
deriving DecidableEq, Repr

/-- A call of `fetch`: the method, the address, the headers and the members of
the object given to `JSON.stringify` (`none` when the call has no body). -/
structure Request where
  method : String
  url : String
  headers : List (String × String)
  body : Option (List (String × JsonValue))
deriving DecidableEq, Repr

/-- What a handler does besides changing the state, in the order it does it. -/
inductive Effect where
  | fetch (r : Request)
  | highlight (dir : Member)
  | clearHighlight
  | preventDefault
  | confirm (msg : String)
  | alert (msg : String)
  | log (msg : String)
deriving DecidableEq, Repr

/-- The request `fetch(url, POST, Content-Type json, JSON.stringify(body))`. -/
def postJson (url : String) (body : List (String × JsonValue)) : Request :=
  { method := "POST", url := url,
    headers := [("Content-Type", "application/json")], body := some body }

/-- The request `fetch(url, POST)`. -/
def postEmpty (url : String) : Request :=
  { method := "POST", url := url, headers := [], body := none }

/-- The request `fetch(url)`. -/
def getRequest (url : String) : Request :=
  { method := "GET", url := url, headers := [], body := none }

/-- A handler: the next state and what was done. -/
abbrev Handler := State → State × List Effect

/-- Run `f`, then `g` on the state `f` leaves. -/
def Handler.andThen (f g : Handler) : Handler := fun s =>
  ((g (f s).1).1, (f s).2 ++ (g (f s).1).2)

/-! ## `controls.js` -/

/-- The members of `JSON.stringify`ing the object with the one member `move`: a
direction is its string, an inherited function is left out, the prototype object
(under `__proto__`) is an empty object. -/
def moveBody : Member → List (String × JsonValue)
  | .direction dir => [("move", JsonValue.str dir.name)]
  | .inherited name => if name = "__proto__" then [("move", JsonValue.emptyObject)] else []

/-- The function `sendMove(dir)`. -/
def sendMove (dir : Member) : Handler := fun s =>
  if s.currentMode = Mode.IDLE then (s, [])
  else (s, [Effect.fetch (postJson "/move" (moveBody dir))])

/-- The function `stopMove()`. -/
def stopMove : Handler := fun s =>
  if s.currentMode = Mode.IDLE then (s, [])
  else (s, [Effect.fetch (postEmpty "/stop")])

/-- The function `highlight(dir)`. For an inherited member `arrowMap[dir]` is
`undefined`, `querySelector` finds no element and the `if` skips the highlight. -/
def highlight (dir : Member) : Handler := fun s =>
  match dir with
  | .direction d =>
    ({ s with dom := { s.dom with arrows := s.dom.arrows.add d } }, [Effect.highlight dir])
  | .inherited _ => (s, [Effect.highlight dir])

/-- The function `clearHighlight()`. -/
def clearHighlight : Handler := fun s =>
  ({ s with dom := { s.dom with arrows := Arrows.cleared } }, [Effect.clearHighlight])

/-- The `touchstart` listener `initTouchControls` puts on the button of `dir`. -/
def touchstart (dir : Direction) : Handler := fun s =>
  let r := ((highlight (Member.direction dir)).andThen (sendMove (Member.direction dir))) s
  (r.1, Effect.preventDefault :: r.2)

/-- The `touchend` listener `initTouchControls` puts on the button of `dir`. -/
def touchend (_dir : Direction) : Handler := fun s =>
  let r := (clearHighlight.andThen stopMove) s
  (r.1, Effect.preventDefault :: r.2)

/-- The text `data.gas_level + "%"`. -/
def gasText (gas_level : JsNumber) : String :=
  numberToString gas_level ++ "%"

/-- The callback of `updateSensors` on a reading `data`. -/
def sensorData (data : SensorData) : Handler := fun s =>
  let fireEl : StatusEl :=
    { text := if data.fire then "🔥 ALERT" else "SAFE", alertActive := data.fire }
  let gasEl : StatusEl :=
    { text := gasText data.gas_level, alertActive := data.gas_level.gt 30 }
  let vibeEl : StatusEl :=
    { text := if data.vibration then "⚠️ SHAKING" else "STABLE", alertActive := data.vibration }
  let audioEl : StatusEl :=
    if data.violence then { text := "🚨 VIOLENCE", alertActive := true }
    else { text := "QUIET", alertActive := false }
  let criticalHidden : Bool := if data.violence then false else true
  ({ s with dom := { s.dom with statFire := fireEl, statGas := gasEl, statVibe := vibeEl,
                                statAudio := audioEl, criticalHidden := criticalHidden } }, [])

/-- The function `updateSensors()` up to its request. -/
def updateSensors : Handler := fun s =>
  (s, [Effect.fetch (getRequest "/sensor_data")])

/-- The `catch` of `updateSensors`. -/
def sensorFailed : Handler := fun s =>
  (s, [Effect.log "Sensor link down..."])

/-- The `keydown` listener. -/
def keydown (key : Key) : Handler := fun s =>
  match keyMap key with
  | none => (s, [])
  | some dir =>
    if s.currentMode = Mode.IDLE ∨ s.activeKey = some key then (s, [])
    else if s.dom.focusInput then (s, [])
    else ((highlight dir).andThen (sendMove dir)) { s with activeKey := some key }

/-- The `keyup` listener. -/
def keyup (key : Key) : Handler := fun s =>
  if s.activeKey = some key then
    let r := (clearHighlight.andThen stopMove) s
    ({ r.1 with activeKey := none }, r.2)
  else (s, [])

/-- The function `toggleMode()`. -/
def toggleMode : Handler := fun s =>
  let mode := if s.currentMode = Mode.MANUAL then Mode.IDLE else Mode.MANUAL
  ({ s with currentMode := mode,
            dom := { s.dom with modeText := mode.name, modeClass := mode.name.toLower } },
   [Effect.fetch (postJson "/set_mode" [("mode", JsonValue.str mode.name)])])

/-- The function `toggleRecording()`. -/
def toggleRecording : Handler := fun s =>
  let recording := !s.isRecording
  ({ s with isRecording := recording,
            dom := { s.dom with recordActive := recording,
                                recordText := if recording then "⏹️" else "⏺️" } },
   [Effect.fetch (postJson "/record"
      [("status", JsonValue.str (if recording then "start" else "stop"))])])

/-- The function `toggleLights()`. -/
def toggleLights : Handler := fun s =>
  let lights := !s.lightsOn
  ({ s with lightsOn := lights,
            dom := { s.dom with lightShadow := if lights then "0 0 15px #00ff00" else "none" } },
   [Effect.fetch (postJson "/action"
      [("action", JsonValue.str "LIGHTS"), ("state", JsonValue.bool lights)])])

/-- The function `openMedKit()`; `answer` is what `confirm` returns when it is
asked. -/
def openMedKit (answer : Bool) : Handler := fun s =>
  if s.medKitOpened then (s, [Effect.alert "Already deployed!"])
  else if answer then
    ({ s with medKitOpened := true },
     [Effect.confirm "Deploy Med Kit?",
      Effect.fetch (postJson "/action" [("action", JsonValue.str "MEDKIT")])])
  else (s, [Effect.confirm "Deploy Med Kit?"])

/-- The function `handleSpeak(event)`, `key` being `event.key`. -/
def handleSpeak (key : Key) : Handler := fun s =>
  if key.val = "Enter" then
    ({ s with dom := { s.dom with speakerInput := "" } },
     [Effect.fetch (postJson "/speak" [("text", JsonValue.str s.dom.speakerInput)])])
  else (s, [])

/-- The function `systemShutdown()`; `answer` is what `confirm` returns. -/
def systemShutdown (answer : Bool) : Handler := fun s =>
  if answer then
    (s, [Effect.confirm "⚠️ SHUTDOWN PI?", Effect.fetch (postEmpty "/shutdown"),
         Effect.alert "System halting..."])
  else (s, [Effect.confirm "⚠️ SHUTDOWN PI?"])

/-- The function `toggleCommsPanel()`. -/
def toggleCommsPanel : Handler := fun s =>
  ({ s with dom := { s.dom with commsHidden := !s.dom.commsHidden } }, [])

/-! ## `app.js` -/

/-- The function `move(direction)` up to its request. -/
def move (direction : String) : Handler := fun s =>
  (s, [Effect.fetch (postJson "/move" [("direction", JsonValue.str direction)])])

/-- The callback of `move` on an answer whose `direction` is the given text. -/
def moveAnswered (direction : String) : Handler := fun s =>
  ({ s with dom := { s.dom with statusText := "Moving: " ++ direction } }, [])

/-- The function `setMode(mode)` up to its request. -/
def setMode (mode : String) : Handler := fun s =>
  (s, [Effect.fetch (postJson "/mode" [("mode", JsonValue.str mode)])])

/-- The callback of `setMode` on an answer whose `mode` is the given text. -/
def setModeAnswered (mode : String) : Handler := fun s =>
  ({ s with dom := { s.dom with statusText := "Mode: " ++ mode } }, [])

/-! ## Sessions -/

/-- Everything that can happen to the page: the listeners and functions of the two
scripts with their arguments, the answers of the server, and what the user does to
the page without a script (moving the focus, typing into the speaker field). -/
inductive Event where
  | keydown (key : Key)
  | keyup (key : Key)
  | touchstart (dir : Direction)
  | touchend (dir : Direction)
  | toggleMode
  | toggleRecording
  | toggleLights
  | openMedKit (answer : Bool)
  | handleSpeak (key : Key)
  | systemShutdown (answer : Bool)
  | toggleCommsPanel
  | updateSensors
  | sensorData (data : SensorData)
  | sensorFailed
  | move (direction : String)
  | moveAnswered (direction : String)
  | setMode (mode : String)
  | setModeAnswered (mode : String)
  | focus (onInput : Bool)
  | typeText (text : String)
deriving DecidableEq

/-- The handler an event runs. -/
def step (s : State) : Event → State × List Effect
  | .keydown key => keydown key s
  | .keyup key => keyup key s
  | .touchstart dir => touchstart dir s
  | .touchend dir => touchend dir s
  | .toggleMode => toggleMode s
  | .toggleRecording => toggleRecording s
  | .toggleLights => toggleLights s
  | .openMedKit answer => openMedKit answer s
  | .handleSpeak key => handleSpeak key s
  | .systemShutdown answer => systemShutdown answer s
  | .toggleCommsPanel => toggleCommsPanel s
  | .updateSensors => updateSensors s
  | .sensorData data => sensorData data s
  | .sensorFailed => sensorFailed s
  | .move direction => move direction s
  | .moveAnswered direction => moveAnswered direction s
  | .setMode mode => setMode mode s
  | .setModeAnswered mode => setModeAnswered mode s
  | .focus onInput => ({ s with dom := { s.dom with focusInput := onInput } }, [])
  | .typeText text => ({ s with dom := { s.dom with speakerInput := text } }, [])

/-- A session: the events in order, the effects concatenated. -/
def run (s : State) : List Event → State × List Effect
  | [] => (s, [])
  | e :: es => ((run (step s e).1 es).1, (step s e).2 ++ (run (step s e).1 es).2)

/-- Whether an effect is a request to `url`. -/
def Effect.isRequestTo (url : String) : Effect → Bool
  | .fetch r => r.url == url
  | _ => false

/-- Whether an effect is a call of `highlight`. -/
def Effect.isHighlight : Effect → Bool
  | .highlight _ => true
  | _ => false

/-- Whether an effect is the request that deploys the med kit. -/
def Effect.isMedKit : Effect → Bool
  | .fetch r => r.url == "/action" && r.body == some [("action", JsonValue.str "MEDKIT")]
  | _ => false

/-- The `status` strings of the requests to `/record`, in order. -/
def recordStatuses : List Effect → List String
  | [] => []
  | .fetch r :: es =>
    if r.url == "/record" then
      match r.body with
      | some [("status", JsonValue.str st)] => st :: recordStatuses es
      | _ => recordStatuses es
    else recordStatuses es
  | _ :: es => recordStatuses es

/-- A page with nothing highlighted, the focus on no input and no text yet. -/
def Dom.blank : Dom :=
  { arrows := Arrows.cleared, focusInput := false, speakerInput := "", modeText := "",
    modeClass := "", recordActive := false, recordText := "", lightShadow := "",
    commsHidden := true, statFire := ⟨"", false⟩, statGas := ⟨"", false⟩,
    statVibe := ⟨"", false⟩, statAudio := ⟨"", false⟩, criticalHidden := true,
    statusText := "" }

/-- The key `w`. -/
def keyW : Key := ⟨"w"⟩

/-- The key `a`. -/
def keyA : Key := ⟨"a"⟩

/-- A key event whose `key` is the string `constructor`. -/
def keyConstructor : Key := ⟨"constructor"⟩

/-- The press that is open at a point of a session, read off the events alone: a
key that went down and not yet up, or a touch that started and has not ended. -/
inductive Held where
  | nothing
  | key (k : Key)
  | touch (dir : Direction)
deriving DecidableEq

/-- The open press after an event: a keydown opens the press of its key, the keyup
of that key closes it, a touchstart opens a touch and a touchend closes it. -/
def heldAfter (h : Held) : Event → Held
  | .keydown k => Held.key k
  | .keyup k => if h = Held.key k then Held.nothing else h
  | .touchstart dir => Held.touch dir
  | .touchend _ =>
    match h with
    | .touch _ => Held.nothing
    | _ => h
  | _ => h

/-- Whether an event does not open a press on top of another: a keydown comes with
no press open or repeats the key that is down, a touchstart comes with no press
open or on the arrow already touched. -/
def pressAllowed (h : Held) : Event → Bool
  | .keydown k => decide (h = Held.nothing) || decide (h = Held.key k)
  | .touchstart dir => decide (h = Held.nothing) || decide (h = Held.touch dir)
  | _ => true

/-- Whether the presses of a session do not overlap, `h` being the press open at
its start. -/
def pressesApart (h : Held) : List Event → Bool
  | [] => true
  | e :: es => pressAllowed h e && pressesApart (heldAfter h e) es

/-- A state in IDLE mode while `w` is still held: `w` pressed, then the mode
toggled. -/
def heldThenIdle : State :=
  (run (State.initial Dom.blank) [Event.keydown keyW, Event.toggleMode]).1

/-- A state in IDLE mode with nothing held. -/
def idleState : State :=
  (run (State.initial Dom.blank) [Event.toggleMode]).1

/-- The reading `fire: true, gas_level: 45, vibration: false, violence: false`. -/
def fireReading : SensorData :=
  { fire := true, gas_level := JsNumber.finite false 45 0 (by decide),
    vibration := false, violence := false }

/-- The reading `fire: false, gas_level: 10, vibration: false, violence: true`. -/
def violenceReading : SensorData :=
  { fire := false, gas_level := JsNumber.finite false 1 1 (by decide),
    vibration := false, violence := true }

/-- The number 30. -/
def thirty : JsNumber := JsNumber.finite false 3 1 (by decide)

/-- The number 30.5. -/
def thirtyAndHalf : JsNumber := JsNumber.finite false 305 (-1) (by decide)

/-- The number 10 ^ 21. -/
def tenToThe21 : JsNumber := JsNumber.finite false 1 21 (by decide)

/-- A state with `w` held and the focus then moved onto an input. -/
def heldThenTyping : State :=
  (run (State.initial Dom.blank) [Event.keydown keyW, Event.focus true]).1

/-- A state that is recording: `toggleRecording` once from the initial state. -/
def recordingState : State :=
  (run (State.initial Dom.blank) [Event.toggleRecording]).1

/-- What the open press says about the state: with no press open no key is held
and no arrow is highlighted; with the press of `k` open either the keydown was
ignored, or `k` is held and at most one arrow is highlighted; with a touch open
exactly its arrow is highlighted. -/
def pressInv (h : Held) (s : State) : Prop :=
  match h with
  | .nothing => s.activeKey = none ∧ s.dom.arrows = Arrows.cleared
  | .key k =>
    (s.activeKey = none ∧ s.dom.arrows = Arrows.cleared) ∨
    (s.activeKey = some k ∧
      (s.dom.arrows = Arrows.cleared ∨ ∃ d, s.dom.arrows = Arrows.cleared.add d))
  | .touch dir => s.activeKey = none ∧ s.dom.arrows = Arrows.cleared.add dir

/-! ## Shared lemmas -/

theorem lookup_entries_eq_none_iff (k : String) :
    keyMapEntries.lookup k = none ↔ k ∉ mappedKeys := by
  rw [List.lookup_eq_none_iff]
  simp only [keyMapEntries, mappedKeys, List.mem_cons, List.mem_singleton, List.not_mem_nil,
    or_false, forall_eq_or_imp, forall_eq, bne_iff_ne, ne_eq, not_or]
  constructor
  · rintro ⟨h1, h2, h3, h4, h5, h6, h7, h8⟩
    exact ⟨h1, h3, h5, h7, h2, h4, h6, h8⟩
  · rintro ⟨h1, h2, h3, h4, h5, h6, h7, h8⟩
    exact ⟨h1, h5, h2, h6, h3, h7, h4, h8⟩

theorem keyMap_eq_none_iff (key : Key) :
    keyMap key = none ↔ key.val ∉ mappedKeys ∧ key.val ∉ inheritedNames := by
  unfold keyMap
  cases hl : keyMapEntries.lookup key.val with
  | none =>
    have hm := (lookup_entries_eq_none_iff key.val).mp hl
    by_cases hi : key.val ∈ inheritedNames <;> simp [hi, hm]
  | some dir =>
    have hm : ¬ key.val ∉ mappedKeys := fun h => by
      rw [(lookup_entries_eq_none_iff key.val).mpr h] at hl
      exact Option.noConfusion hl
    simp [hm]

theorem keyMap_isSome_of_mapped (key : Key) (h : key.val ∈ mappedKeys) :
    ∃ dir : Direction, keyMap key = some (Member.direction dir) := by
  unfold keyMap
  cases hl : keyMapEntries.lookup key.val with
  | none => exact absurd h ((lookup_entries_eq_none_iff key.val).mp hl)
  | some dir => exact ⟨dir, rfl⟩

theorem keyMap_of_inherited (key : Key) (hm : key.val ∉ mappedKeys)
    (hi : key.val ∈ inheritedNames) : keyMap key = some (Member.inherited key.val) := by
  unfold keyMap
  rw [(lookup_entries_eq_none_iff key.val).mpr hm]
  simp [hi]

theorem keydown_of_unmapped (s : State) (key : Key) (h : keyMap key = none) :
    keydown key s = (s, []) := by
  simp [keydown, h]

theorem keydown_of_idle (s : State) (key : Key) (h : s.currentMode = Mode.IDLE) :
    keydown key s = (s, []) := by
  unfold keydown
  cases keyMap key <;> simp [h]

theorem keydown_of_repeat (s : State) (key : Key) (h : s.activeKey = some key) :
    keydown key s = (s, []) := by
  unfold keydown
  cases keyMap key <;> simp [h]

theorem keydown_of_focus (s : State) (key : Key) (h : s.dom.focusInput = true) :
    keydown key s = (s, []) := by
  unfold keydown
  cases keyMap key <;> simp [h]

theorem keydown_accepted (s : State) (key : Key) (dir : Direction)
    (hmap : keyMap key = some (Member.direction dir)) (hmode : s.currentMode = Mode.MANUAL)
    (hkey : s.activeKey ≠ some key) (hfocus : s.dom.focusInput = false) :
    keydown key s =
      ({ s with activeKey := some key, dom := { s.dom with arrows := s.dom.arrows.add dir } },
       [Effect.highlight (Member.direction dir),
        Effect.fetch (postJson "/move" [("move", JsonValue.str dir.name)])]) := by
  simp [keydown, hmap, hmode, hkey, hfocus, Handler.andThen, highlight, sendMove, moveBody]

theorem keydown_accepted_inherited (s : State) (key : Key) (name : String)
    (hmap : keyMap key = some (Member.inherited name)) (hmode : s.currentMode = Mode.MANUAL)
    (hkey : s.activeKey ≠ some key) (hfocus : s.dom.focusInput = false) :
    keydown key s =
      ({ s with activeKey := some key },
       [Effect.highlight (Member.inherited name),
        Effect.fetch (postJson "/move" (moveBody (Member.inherited name)))]) := by
  simp [keydown, hmap, hmode, hkey, hfocus, Handler.andThen, highlight, sendMove]

theorem keyup_of_other (s : State) (key : Key) (h : s.activeKey ≠ some key) :
    keyup key s = (s, []) := by
  simp [keyup, h]

theorem run_nil (s : State) : run s [] = (s, []) := rfl

theorem run_cons (s : State) (e : Event) (es : List Event) :
    run s (e :: es) = ((run (step s e).1 es).1, (step s e).2 ++ (run (step s e).1 es).2) := rfl

theorem run_append (s : State) (xs ys : List Event) :
    run s (xs ++ ys) = ((run (run s xs).1 ys).1, (run s xs).2 ++ (run (run s xs).1 ys).2) := by
  induction xs generalizing s with
  | nil => simp [run_nil]
  | cons e es ih => simp [run_cons, ih, List.append_assoc]

theorem run_repeat_of_held (s : State) (key : Key) (h : s.activeKey = some key) (n : Nat) :
    run s (List.replicate n (Event.keydown key)) = (s, []) := by
  induction n with
  | zero => rfl
  | succ n ih =>
    have hstep : step s (Event.keydown key) = (s, []) := keydown_of_repeat s key h
    simp [List.replicate_succ, run_cons, hstep, ih]

theorem keydown_cases (s : State) (key : Key) :
    keydown key s = (s, []) ∨
    (s.activeKey ≠ some key ∧ (keydown key s).1.activeKey = some key ∧
      ((keydown key s).1.dom.arrows = s.dom.arrows ∨
        ∃ d, (keydown key s).1.dom.arrows = s.dom.arrows.add d)) := by
  cases hk : keyMap key with
  | none => left; exact keydown_of_unmapped s key hk
  | some v =>
    by_cases h1 : s.currentMode = Mode.IDLE
    · left; exact keydown_of_idle s key h1
    · by_cases h2 : s.activeKey = some key
      · left; exact keydown_of_repeat s key h2
      · by_cases h3 : s.dom.focusInput = true
        · left; exact keydown_of_focus s key h3
        · right
          refine ⟨h2, ?_, ?_⟩
          · cases v <;>
              simp [keydown, hk, h1, h2, h3, Handler.andThen, highlight, sendMove]
          · cases v with
            | direction d =>
              right
              exact ⟨d, by simp [keydown, hk, h1, h2, h3, Handler.andThen, highlight, sendMove]⟩
            | inherited name =>
              left
              simp [keydown, hk, h1, h2, h3, Handler.andThen, highlight, sendMove]

theorem keyup_held (s : State) (key : Key) (h : s.activeKey = some key) :
    (keyup key s).1.activeKey = none ∧ (keyup key s).1.dom.arrows = Arrows.cleared := by
  cases hm : s.currentMode <;>
    simp [keyup, h, Handler.andThen, clearHighlight, stopMove, hm]

theorem touchstart_state (s : State) (dir : Direction) :
    (touchstart dir s).1.activeKey = s.activeKey ∧
    (touchstart dir s).1.dom.arrows = s.dom.arrows.add dir := by
  cases hm : s.currentMode <;>
    simp [touchstart, Handler.andThen, highlight, sendMove, hm]

theorem touchend_state (s : State) (dir : Direction) :
    (touchend dir s).1.activeKey = s.activeKey ∧
    (touchend dir s).1.dom.arrows = Arrows.cleared := by
  cases hm : s.currentMode <;>
    simp [touchend, Handler.andThen, clearHighlight, stopMove, hm]

theorem arrows_add_add (a : Arrows) (d : Direction) : (a.add d).add d = a.add d := by
  cases d <;> rfl

theorem pressInv_frame (h : Held) (s t : State) (hk : t.activeKey = s.activeKey)
    (ha : t.dom.arrows = s.dom.arrows) (hs : pressInv h s) : pressInv h t := by
  cases h <;> simpa [pressInv, hk, ha] using hs

theorem pressInv_highlighted (h : Held) (s : State) (hs : pressInv h s) :
    s.dom.arrows.highlighted.length ≤ 1 := by
  have key : ∀ d : Direction, (Arrows.cleared.add d).highlighted.length ≤ 1 := by
    intro d; cases d <;> decide
  cases h with
  | nothing => rw [hs.2]; decide
  | key k =>
    rcases hs with ⟨_, ha⟩ | ⟨_, ha | ⟨d, ha⟩⟩
    · rw [ha]; decide
    · rw [ha]; decide
    · rw [ha]; exact key d
  | touch dir => rw [hs.2]; exact key dir

theorem pressInv_step (h : Held) (s : State) (e : Event) (hs : pressInv h s)
    (he : pressAllowed h e = true) : pressInv (heldAfter h e) (step s e).1 := by
  cases e with
  | keydown k =>
    have hcases := keydown_cases s k
    have hstate : (s.activeKey = none ∧ s.dom.arrows = Arrows.cleared) ∨
        (s.activeKey = some k ∧
          (s.dom.arrows = Arrows.cleared ∨ ∃ d, s.dom.arrows = Arrows.cleared.add d)) := by
      cases h with
      | nothing => exact Or.inl hs
      | key k0 =>
        have : k0 = k := by simpa [pressAllowed] using he
        subst this
        exact hs
      | touch dir => simp [pressAllowed] at he
    show pressInv (Held.key k) (keydown k s).1
    rcases hcases with hsame | ⟨hne, hkey, harr⟩
    · rw [hsame]; exact hstate
    · rcases hstate with ⟨_, ha⟩ | ⟨hk, _⟩
      · right
        refine ⟨hkey, ?_⟩
        rcases harr with harr | ⟨d, harr⟩
        · left; rw [harr, ha]
        · right; exact ⟨d, by rw [harr, ha]⟩
      · exact absurd hk hne
  | keyup k =>
    show pressInv (if h = Held.key k then Held.nothing else h) (keyup k s).1
    by_cases hh : h = Held.key k
    · rw [if_pos hh]
      subst hh
      rcases hs with ⟨hk, ha⟩ | ⟨hk, _⟩
      · have : s.activeKey ≠ some k := by rw [hk]; exact Option.noConfusion
        rw [keyup_of_other s k this]
        exact ⟨hk, ha⟩
      · exact keyup_held s k hk
    · rw [if_neg hh]
      have hother : s.activeKey ≠ some k := by
        cases h with
        | nothing => rw [hs.1]; exact Option.noConfusion
        | key k0 =>
          rcases hs with ⟨hk, _⟩ | ⟨hk, _⟩
          · rw [hk]; exact Option.noConfusion
          · rw [hk]
            intro hc
            exact hh (by rw [Option.some.inj hc])
        | touch dir => rw [hs.1]; exact Option.noConfusion
      rw [keyup_of_other s k hother]
      exact hs
  | touchstart dir =>
    obtain ⟨hk, ha⟩ := touchstart_state s dir
    show pressInv (Held.touch dir) (touchstart dir s).1
    cases h with
    | nothing => exact ⟨by rw [hk]; exact hs.1, by rw [ha, hs.2]⟩
    | key k0 => simp [pressAllowed] at he
    | touch d0 =>
      have : d0 = dir := by simpa [pressAllowed] using he
      subst this
      exact ⟨by rw [hk]; exact hs.1, by rw [ha, hs.2, arrows_add_add]⟩
  | touchend dir =>
    obtain ⟨hk, ha⟩ := touchend_state s dir
    cases h with
    | nothing =>
      show pressInv Held.nothing (touchend dir s).1
      exact ⟨by rw [hk]; exact hs.1, ha⟩
    | key k0 =>
      show pressInv (Held.key k0) (touchend dir s).1
      rcases hs with ⟨hk0, _⟩ | ⟨hk0, _⟩
      · left; exact ⟨by rw [hk]; exact hk0, ha⟩
      · right; exact ⟨by rw [hk]; exact hk0, Or.inl ha⟩
    | touch d0 =>
      show pressInv Held.nothing (touchend dir s).1
      exact ⟨by rw [hk]; exact hs.1, ha⟩
  | toggleMode => exact pressInv_frame h s _ (by simp [step, toggleMode]) (by simp [step, toggleMode]) hs
  | toggleRecording =>
    exact pressInv_frame h s _ (by simp [step, toggleRecording]) (by simp [step, toggleRecording]) hs
  | toggleLights =>
    exact pressInv_frame h s _ (by simp [step, toggleLights]) (by simp [step, toggleLights]) hs
  | openMedKit answer =>
    refine pressInv_frame h s _ ?_ ?_ hs <;>
      cases hm : s.medKitOpened <;> cases answer <;> simp [step, openMedKit, hm]
  | handleSpeak key =>
    refine pressInv_frame h s _ ?_ ?_ hs <;>
      by_cases hkey : key.val = "Enter" <;> simp [step, handleSpeak, hkey]
  | systemShutdown answer =>
    refine pressInv_frame h s _ ?_ ?_ hs <;> cases answer <;> simp [step, systemShutdown]
  | toggleCommsPanel =>
    exact pressInv_frame h s _ (by simp [step, toggleCommsPanel]) (by simp [step, toggleCommsPanel]) hs
  | updateSensors =>
    exact pressInv_frame h s _ (by simp [step, updateSensors]) (by simp [step, updateSensors]) hs
  | sensorData data =>
    exact pressInv_frame h s _ (by simp [step, sensorData]) (by simp [step, sensorData]) hs
  | sensorFailed =>
    exact pressInv_frame h s _ (by simp [step, sensorFailed]) (by simp [step, sensorFailed]) hs
  | move direction => exact pressInv_frame h s _ (by simp [step, move]) (by simp [step, move]) hs
  | moveAnswered direction =>
    exact pressInv_frame h s _ (by simp [step, moveAnswered]) (by simp [step, moveAnswered]) hs
  | setMode mode => exact pressInv_frame h s _ (by simp [step, setMode]) (by simp [step, setMode]) hs
  | setModeAnswered mode =>
    exact pressInv_frame h s _ (by simp [step, setModeAnswered]) (by simp [step, setModeAnswered]) hs
  | focus onInput => exact pressInv_frame h s _ (by simp [step]) (by simp [step]) hs
  | typeText text => exact pressInv_frame h s _ (by simp [step]) (by simp [step]) hs

theorem pressInv_run (h : Held) (s : State) (es : List Event) (hs : pressInv h s)
    (hes : pressesApart h es = true) :
    (run s es).1.dom.arrows.highlighted.length ≤ 1 := by
  induction es generalizing h s with
  | nil => exact pressInv_highlighted h s hs
  | cons e es ih =>
    simp only [pressesApart, Bool.and_eq_true] at hes
    rw [run_cons]
    exact ih (heldAfter h e) _ (pressInv_step h s e hs hes.1) hes.2

theorem pressesApart_take (h : Held) (es : List Event) (n : Nat)
    (hes : pressesApart h es = true) : pressesApart h (es.take n) = true := by
  induction es generalizing h n with
  | nil => simp [pressesApart]
  | cons e es ih =>
    cases n with
    | zero => simp [pressesApart]
    | succ n =>
      simp only [pressesApart, Bool.and_eq_true] at hes
      simp only [List.take_succ_cons, pressesApart, Bool.and_eq_true]
      exact ⟨hes.1, ih _ n hes.2⟩

theorem medKitOpened_step (s : State) (e : Event) :
    (step s e).1.medKitOpened = (s.medKitOpened || decide (e = Event.openMedKit true)) := by
  cases e with
  | keydown key =>
    cases hk : keyMap key with
    | none => simp [step, keydown, hk]
    | some v =>
      cases v <;>
        (simp only [step, keydown, hk, Handler.andThen, highlight, sendMove]
         split_ifs <;> simp)
  | keyup key =>
    simp only [step, keyup, Handler.andThen, clearHighlight, stopMove]
    split_ifs <;> simp
  | touchstart dir =>
    simp only [step, touchstart, Handler.andThen, highlight, sendMove]
    split_ifs <;> simp
  | touchend dir =>
    simp only [step, touchend, Handler.andThen, clearHighlight, stopMove]
    split_ifs <;> simp
  | toggleMode => simp [step, toggleMode]
  | toggleRecording => simp [step, toggleRecording]
  | toggleLights => simp [step, toggleLights]
  | openMedKit answer =>
    cases hm : s.medKitOpened <;> cases answer <;> simp [step, openMedKit, hm]
  | handleSpeak key =>
    by_cases h : key.val = "Enter" <;> simp [step, handleSpeak, h]
  | systemShutdown answer => cases answer <;> simp [step, systemShutdown]
  | toggleCommsPanel => simp [step, toggleCommsPanel]
  | updateSensors => simp [step, updateSensors]
  | sensorData data => simp [step, sensorData]
  | sensorFailed => simp [step, sensorFailed]
  | move direction => simp [step, move]
  | moveAnswered direction => simp [step, moveAnswered]
  | setMode mode => simp [step, setMode]
  | setModeAnswered mode => simp [step, setModeAnswered]
  | focus onInput => simp [step]
  | typeText text => simp [step]

theorem medKit_requests_step (s : State) (e : Event) :
    ((step s e).2.filter Effect.isMedKit).length =
      if s.medKitOpened = false ∧ e = Event.openMedKit true then 1 else 0 := by
  cases e with
  | keydown key =>
    cases hk : keyMap key with
    | none => simp [step, keydown, hk]
    | some v =>
      cases v <;>
        (simp only [step, keydown, hk, Handler.andThen, highlight, sendMove]
         split_ifs <;> simp_all [Effect.isMedKit, postJson])
  | keyup key =>
    simp only [step, keyup, Handler.andThen, clearHighlight, stopMove]
    split_ifs <;> simp_all [Effect.isMedKit, postEmpty]
  | touchstart dir =>
    simp only [step, touchstart, Handler.andThen, highlight, sendMove]
    split_ifs <;> simp_all [Effect.isMedKit, postJson]
  | touchend dir =>
    simp only [step, touchend, Handler.andThen, clearHighlight, stopMove]
    split_ifs <;> simp_all [Effect.isMedKit, postEmpty]
  | toggleMode => simp [step, toggleMode, Effect.isMedKit, postJson]
  | toggleRecording => simp [step, toggleRecording, Effect.isMedKit, postJson]
  | toggleLights => simp [step, toggleLights, Effect.isMedKit, postJson]
  | openMedKit answer =>
    cases hm : s.medKitOpened <;> cases answer <;>
      simp [step, openMedKit, hm, Effect.isMedKit, postJson]
  | handleSpeak key =>
    by_cases h : key.val = "Enter" <;> simp [step, handleSpeak, h, Effect.isMedKit, postJson]
  | systemShutdown answer =>
    cases answer <;> simp [step, systemShutdown, Effect.isMedKit, postEmpty]
  | toggleCommsPanel => simp [step, toggleCommsPanel]
  | updateSensors => simp [step, updateSensors, Effect.isMedKit, getRequest]
  | sensorData data => simp [step, sensorData]
  | sensorFailed => simp [step, sensorFailed, Effect.isMedKit]
  | move direction => simp [step, move, Effect.isMedKit, postJson]
  | moveAnswered direction => simp [step, moveAnswered]
  | setMode mode => simp [step, setMode, Effect.isMedKit, postJson]
  | setModeAnswered mode => simp [step, setModeAnswered]
  | focus onInput => simp [step]
  | typeText text => simp [step]

theorem medKitOpened_run (s : State) (es : List Event) (h : s.medKitOpened = true) :
    (run s es).1.medKitOpened = true := by
  induction es generalizing s with
  | nil => exact h
  | cons e es ih =>
    rw [run_cons]
    exact ih _ (by rw [medKitOpened_step, h]; rfl)

theorem medKitOpened_run_false (s : State) (es : List Event) (h : s.medKitOpened = false)
    (hes : ∀ e ∈ es, e ≠ Event.openMedKit true) : (run s es).1.medKitOpened = false := by
  induction es generalizing s with
  | nil => exact h
  | cons e es ih =>
    rw [run_cons]
    refine ih _ ?_ (fun e1 h1 => hes e1 (List.mem_cons_of_mem _ h1))
    rw [medKitOpened_step, h]
    simpa using hes e (List.mem_cons_self _ _)

theorem medKit_requests_run (s : State) (es : List Event) :
    ((run s es).2.filter Effect.isMedKit).length ≤ if s.medKitOpened = true then 0 else 1 := by
  induction es generalizing s with
  | nil => simp [run_nil]
  | cons e es ih =>
    rw [run_cons, List.filter_append, List.length_append, medKit_requests_step]
    have hrest := ih (step s e).1
    rw [medKitOpened_step] at hrest
    cases hs : s.medKitOpened
    · by_cases he : e = Event.openMedKit true
      · simp [hs, he] at hrest ⊢
        exact hrest
      · simp [hs, he] at hrest ⊢
        exact hrest
    · simp [hs] at hrest ⊢
      exact hrest

theorem gt_iff (x : JsNumber) (c : ℚ) :
    x.gt c = true ↔ x = JsNumber.infinity false ∨ ∃ q, x.value = some q ∧ q > c := by
  cases x with
  | nan => simp [JsNumber.gt, JsNumber.value]
  | infinity negative => cases negative <;> simp [JsNumber.gt, JsNumber.value]
  | zero => simp [JsNumber.gt, JsNumber.value]
  | finite negative s e h => simp [JsNumber.gt, JsNumber.value]

theorem thirty_not_gt : thirty.gt 30 = false := by
  simp [thirty, JsNumber.gt]
  norm_num

theorem thirtyAndHalf_gt : thirtyAndHalf.gt 30 = true := by
  simp [thirtyAndHalf, JsNumber.gt]
  norm_num

theorem fireReading_gt : fireReading.gas_level.gt 30 = true := by
  simp [fireReading, JsNumber.gt]
  norm_num

theorem violenceReading_not_gt : violenceReading.gas_level.gt 30 = false := by
  simp [violenceReading, JsNumber.gt]
  norm_num

/-! ## The claims -/

/-- C1: in IDLE mode the keydown, keyup, touchstart and touchend handlers issue no
request to `/move` and none to `/stop`, for every key, direction and held key,
while each toggle action still issues its own request: `toggleLights`,
`toggleRecording`, a confirmed `openMedKit` before the first deployment,
`handleSpeak` on Enter, a confirmed `systemShutdown` and `toggleMode`. -/
theorem idle_suppresses_movement_only (s : State) (hidle : s.currentMode = Mode.IDLE)
    (key : Key) (dir : Direction) :
    (∀ e ∈ [Event.keydown key, Event.keyup key, Event.touchstart dir, Event.touchend dir],
      ∀ c ∈ (step s e).2, c.isRequestTo "/move" = false ∧ c.isRequestTo "/stop" = false) ∧
    (step s Event.toggleLights).2 =
      [Effect.fetch (postJson "/action"
        [("action", JsonValue.str "LIGHTS"), ("state", JsonValue.bool (!s.lightsOn))])] ∧
    (step s Event.toggleRecording).2 =
      [Effect.fetch (postJson "/record"
        [("status", JsonValue.str (if s.isRecording then "stop" else "start"))])] ∧
    (s.medKitOpened = false →
      (step s (Event.openMedKit true)).2 =
        [Effect.confirm "Deploy Med Kit?",
         Effect.fetch (postJson "/action" [("action", JsonValue.str "MEDKIT")])]) ∧
    (∀ k : Key, k.val = "Enter" →
      (step s (Event.handleSpeak k)).2 =
        [Effect.fetch (postJson "/speak" [("text", JsonValue.str s.dom.speakerInput)])]) ∧
    (step s (Event.systemShutdown true)).2 =
      [Effect.confirm "⚠️ SHUTDOWN PI?", Effect.fetch (postEmpty "/shutdown"),
       Effect.alert "System halting..."] ∧
    (step s Event.toggleMode).2 =
      [Effect.fetch (postJson "/set_mode" [("mode", JsonValue.str "MANUAL")])] := by
  refine ⟨?_, ?_, ?_, ?_, ?_, ?_, ?_⟩
  · intro e he c hc
    simp only [List.mem_cons, List.mem_singleton, List.not_mem_nil, or_false] at he
    rcases he with rfl | rfl | rfl | rfl
    · simp [step, keydown_of_idle s key hidle] at hc
    · by_cases hk : s.activeKey = some key
      · simp [step, keyup, hk, Handler.andThen, clearHighlight, stopMove, hidle] at hc
        subst hc
        simp [Effect.isRequestTo]
      · simp [step, keyup_of_other s key hk] at hc
    · simp [step, touchstart, Handler.andThen, highlight, sendMove, hidle] at hc
      rcases hc with rfl | rfl <;> simp [Effect.isRequestTo]
    · simp [step, touchend, Handler.andThen, clearHighlight, stopMove, hidle] at hc
      rcases hc with rfl | rfl <;> simp [Effect.isRequestTo]
  · simp [step, toggleLights]
  · cases hr : s.isRecording <;> simp [step, toggleRecording, hr]
  · intro hm
    simp [step, openMedKit, hm]
  · intro k hk
    simp [step, handleSpeak, hk]
  · simp [step, systemShutdown]
  · simp [step, toggleMode, hidle, Mode.name]

/-- C1 at a concrete state: in the IDLE state reached by one `toggleMode`, pressing
`w` issues nothing and `toggleLights` still posts its action. -/
theorem idle_suppresses_movement_only_witness :
    idleState.currentMode = Mode.IDLE ∧
    (∀ c ∈ (step idleState (Event.keydown keyW)).2,
      c.isRequestTo "/move" = false ∧ c.isRequestTo "/stop" = false) ∧
    (step idleState Event.toggleLights).2 =
      [Effect.fetch (postJson "/action"
        [("action", JsonValue.str "LIGHTS"), ("state", JsonValue.bool (!idleState.lightsOn))])] :=
  ⟨rfl,
   (idle_suppresses_movement_only idleState rfl keyW Direction.FORWARD).1
     (Event.keydown keyW) (List.mem_cons_self _ _),
   (idle_suppresses_movement_only idleState rfl keyW Direction.FORWARD).2.1⟩

/-- C2 as stated fails in IDLE mode: with `w` held and the mode then toggled to
IDLE, releasing `w` clears the highlight and the held key but posts nothing, so
the number of requests to `/stop` is zero, not one. -/
theorem keyup_in_idle_posts_no_stop :
    heldThenIdle.activeKey = some keyW ∧
    heldThenIdle.currentMode = Mode.IDLE ∧
    (step heldThenIdle (Event.keyup keyW)).2 = [Effect.clearHighlight] ∧
    ¬ (((step heldThenIdle (Event.keyup keyW)).2.filter (Effect.isRequestTo "/stop")).length = 1) := by
  decide

/-- C2, amended: releasing the held key always clears every highlight and resets
the held key to none, and posts exactly one `/stop` when the mode is MANUAL; in
IDLE mode it posts nothing. -/
theorem keyup_of_held_key (s : State) (key : Key) (h : s.activeKey = some key) :
    (step s (Event.keyup key)).1 =
      { s with activeKey := none, dom := { s.dom with arrows := Arrows.cleared } } ∧
    (s.currentMode = Mode.MANUAL →
      (step s (Event.keyup key)).2 = [Effect.clearHighlight, Effect.fetch (postEmpty "/stop")]) ∧
    (s.currentMode = Mode.IDLE →
      (step s (Event.keyup key)).2 = [Effect.clearHighlight]) := by
  refine ⟨?_, ?_, ?_⟩
  · cases hm : s.currentMode <;>
      simp [step, keyup, h, Handler.andThen, clearHighlight, stopMove, hm]
  · intro hm
    simp [step, keyup, h, Handler.andThen, clearHighlight, stopMove, hm]
  · intro hm
    simp [step, keyup, h, Handler.andThen, clearHighlight, stopMove, hm]

/-- C2, amended, at a concrete state: after pressing `w` in MANUAL mode, releasing
`w` posts the one `/stop`. -/
theorem keyup_of_held_key_witness :
    (step (State.initial Dom.blank) (Event.keydown keyW)).1.activeKey = some keyW ∧
    (step (step (State.initial Dom.blank) (Event.keydown keyW)).1 (Event.keyup keyW)).2 =
      [Effect.clearHighlight, Effect.fetch (postEmpty "/stop")] :=
  ⟨by decide,
   (keyup_of_held_key (step (State.initial Dom.blank) (Event.keydown keyW)).1 keyW
     (by decide)).2.1 (by decide)⟩

/-- C3 is right and the code misses a case: `!keyMap[e.key]` is meant to turn away
every key outside the eight entries, but for a key named like a member every
object inherits the lookup is truthy. In the initial state (MANUAL, nothing held,
focus outside an input) the keydown of `constructor`, which is not one of the
eight keys, is not ignored: it becomes the held key and a `/move` is posted,
without a direction. -/
theorem keydown_accepts_inherited_name :
    keyConstructor.val ∉ mappedKeys ∧
    step (State.initial Dom.blank) (Event.keydown keyConstructor) =
      ({ State.initial Dom.blank with activeKey := some keyConstructor },
       [Effect.highlight (Member.inherited "constructor"),
        Effect.fetch (postJson "/move" [])]) ∧
    ((step (State.initial Dom.blank) (Event.keydown keyConstructor)).2.filter
      (Effect.isRequestTo "/move")).length = 1 ∧
    ¬ (step (State.initial Dom.blank) (Event.keydown keyConstructor) =
      (State.initial Dom.blank, [])) := by
  decide

/-- The keydown contract away from the twelve inherited names: for every other key
the handler does nothing when the mode is IDLE, or the key is the held key, or the
key is not one of the eight mapped keys, or the focus is on an input; in every
other case it makes the key the held key, highlights the direction `keyMap` gives
and posts exactly one `/move` with that direction. -/
theorem keydown_contract_off_inherited (s : State) (key : Key)
    (hown : key.val ∉ inheritedNames) :
    ((s.currentMode = Mode.IDLE ∨ s.activeKey = some key ∨ key.val ∉ mappedKeys ∨
        s.dom.focusInput = true) →
      step s (Event.keydown key) = (s, [])) ∧
    (¬ (s.currentMode = Mode.IDLE ∨ s.activeKey = some key ∨ key.val ∉ mappedKeys ∨
        s.dom.focusInput = true) →
      ∃ dir : Direction, keyMap key = some (Member.direction dir) ∧
        step s (Event.keydown key) =
          ({ s with activeKey := some key,
                    dom := { s.dom with arrows := s.dom.arrows.add dir } },
           [Effect.highlight (Member.direction dir),
            Effect.fetch (postJson "/move" [("move", JsonValue.str dir.name)])]) ∧
        (step s (Event.keydown key)).1.dom.arrows.active dir = true) ∧
    (key.val ∉ mappedKeys →
      (step s (Event.keydown key)).2 = [] ∧
      (step s (Event.keydown key)).1.dom.arrows = s.dom.arrows) := by
  refine ⟨?_, ?_, ?_⟩
  · rintro (h | h | h | h)
    · exact keydown_of_idle s key h
    · exact keydown_of_repeat s key h
    · exact keydown_of_unmapped s key ((keyMap_eq_none_iff key).mpr ⟨h, hown⟩)
    · exact keydown_of_focus s key h
  · intro h
    simp only [not_or, not_not] at h
    obtain ⟨hmode, hkey, hmapped, hfocus⟩ := h
    obtain ⟨dir, hdir⟩ := keyMap_isSome_of_mapped key hmapped
    have hmanual : s.currentMode = Mode.MANUAL := by
      cases hm : s.currentMode
      · rfl
      · exact absurd hm hmode
    have hnofocus : s.dom.focusInput = false := by
      cases hf : s.dom.focusInput
      · rfl
      · exact absurd hf hfocus
    have hstep := keydown_accepted s key dir hdir hmanual hkey hnofocus
    refine ⟨dir, hdir, hstep, ?_⟩
    show (keydown key s).1.dom.arrows.active dir = true
    rw [hstep]
    cases dir <;> rfl
  · intro h
    have hstep := keydown_of_unmapped s key ((keyMap_eq_none_iff key).mpr ⟨h, hown⟩)
    show (keydown key s).2 = [] ∧ (keydown key s).1.dom.arrows = s.dom.arrows
    rw [hstep]
    exact ⟨rfl, rfl⟩

/-- C4: a mapped key held down — `n ≥ 1` keydown events for it and nothing else,
starting in MANUAL mode with the focus outside an input and another key or none
held — issues exactly one `/move` and one call of `highlight`, both by the first
event. -/
theorem held_key_moves_once (s : State) (k : Key) (n : Nat)
    (hmapped : k.val ∈ mappedKeys) (hn : 1 ≤ n) (hmode : s.currentMode = Mode.MANUAL)
    (hfocus : s.dom.focusInput = false) (hkey : s.activeKey ≠ some k) :
    ∃ dir : Direction, keyMap k = some (Member.direction dir) ∧
      (step s (Event.keydown k)).2 =
        [Effect.highlight (Member.direction dir),
         Effect.fetch (postJson "/move" [("move", JsonValue.str dir.name)])] ∧
      (run s (List.replicate n (Event.keydown k))).2 = (step s (Event.keydown k)).2 ∧
      ((run s (List.replicate n (Event.keydown k))).2.filter
        (Effect.isRequestTo "/move")).length = 1 ∧
      ((run s (List.replicate n (Event.keydown k))).2.filter Effect.isHighlight).length = 1 := by
  obtain ⟨dir, hdir⟩ := keyMap_isSome_of_mapped k hmapped
  have hstep : step s (Event.keydown k) = _ := keydown_accepted s k dir hdir hmode hkey hfocus
  obtain ⟨m, rfl⟩ : ∃ m, n = m + 1 := ⟨n - 1, by omega⟩
  have hrest := run_repeat_of_held (step s (Event.keydown k)).1 k (by rw [hstep]) m
  have hrun : (run s (List.replicate (m + 1) (Event.keydown k))).2 =
      (step s (Event.keydown k)).2 := by
    rw [List.replicate_succ, run_cons, hrest]
    simp
  refine ⟨dir, hdir, by rw [hstep], hrun, ?_, ?_⟩
  · rw [hrun, hstep]
    simp [Effect.isRequestTo, postJson]
  · rw [hrun, hstep]
    simp [Effect.isHighlight]

/-- C4 at a concrete input: `w` held for three keydown events from the initial
state issues one `/move` and one highlight call. -/
theorem held_key_moves_once_witness :
    ∃ dir : Direction, keyMap keyW = some (Member.direction dir) ∧
      (step (State.initial Dom.blank) (Event.keydown keyW)).2 =
        [Effect.highlight (Member.direction dir),
         Effect.fetch (postJson "/move" [("move", JsonValue.str dir.name)])] ∧
      (run (State.initial Dom.blank) (List.replicate 3 (Event.keydown keyW))).2 =
        (step (State.initial Dom.blank) (Event.keydown keyW)).2 ∧
      ((run (State.initial Dom.blank) (List.replicate 3 (Event.keydown keyW))).2.filter
        (Effect.isRequestTo "/move")).length = 1 ∧
      ((run (State.initial Dom.blank) (List.replicate 3 (Event.keydown keyW))).2.filter
        Effect.isHighlight).length = 1 :=
  held_key_moves_once (State.initial Dom.blank) keyW 3 (by decide) (by decide) rfl rfl
    (by decide)

/-- C5 as stated fails: from the initial state with nothing highlighted, pressing
`w` and then `a` (no release in between) leaves both the FORWARD and the LEFT
arrow highlighted. -/
theorem two_held_keys_highlight_two_arrows :
    (State.initial Dom.blank).dom.arrows.highlighted = [] ∧
    (run (State.initial Dom.blank)
      [Event.keydown keyW, Event.keydown keyA]).1.dom.arrows.highlighted =
        [Direction.FORWARD, Direction.LEFT] ∧
    ¬ ((run (State.initial Dom.blank)
      [Event.keydown keyW, Event.keydown keyA]).1.dom.arrows.highlighted.length ≤ 1) ∧
    pressesApart Held.nothing [Event.keydown keyW, Event.keydown keyA] = false := by
  decide

/-- C5, amended: `highlight` adds a highlight and clears none, so the bound needs
presses that do not overlap. From a state with no key held and nothing highlighted
(the initial state, in either mode), at every moment of a session of any events in
which a keydown comes only with no press open or as a repeat of the key that is
down, and a touchstart only with no press open or on the arrow already touched,
at most one direction is highlighted. -/
theorem at_most_one_highlight_when_apart (s : State) (es : List Event)
    (hkey : s.activeKey = none) (harrows : s.dom.arrows = Arrows.cleared)
    (hes : pressesApart Held.nothing es = true) (n : Nat) :
    (run s (es.take n)).1.dom.arrows.highlighted.length ≤ 1 :=
  pressInv_run Held.nothing s (es.take n) ⟨hkey, harrows⟩
    (pressesApart_take Held.nothing es n hes)

/-- C5, amended, at a concrete session: press `w` twice (a repeat) and release it,
touch and leave the LEFT arrow, press `a`. -/
theorem at_most_one_highlight_when_apart_witness :
    (State.initial Dom.blank).activeKey = none ∧
    (State.initial Dom.blank).dom.arrows = Arrows.cleared ∧
    pressesApart Held.nothing
      [Event.keydown keyW, Event.keydown keyW, Event.keyup keyW,
       Event.touchstart Direction.LEFT, Event.touchend Direction.LEFT,
       Event.keydown keyA] = true ∧
    (run (State.initial Dom.blank)
      ([Event.keydown keyW, Event.keydown keyW, Event.keyup keyW,
        Event.touchstart Direction.LEFT, Event.touchend Direction.LEFT,
        Event.keydown keyA].take 6)).1.dom.arrows.highlighted = [Direction.LEFT] ∧
    (run (State.initial Dom.blank)
      ([Event.keydown keyW, Event.keydown keyW, Event.keyup keyW,
        Event.touchstart Direction.LEFT, Event.touchend Direction.LEFT,
        Event.keydown keyA].take 6)).1.dom.arrows.highlighted.length ≤ 1 :=
  ⟨rfl, rfl, by decide, by decide,
   at_most_one_highlight_when_apart (State.initial Dom.blank)
     [Event.keydown keyW, Event.keydown keyW, Event.keyup keyW,
      Event.touchstart Direction.LEFT, Event.touchend Direction.LEFT,
      Event.keydown keyA] rfl rfl (by decide) 6⟩

/-- C6: the med kit is deployed at most once. A confirmed `openMedKit` before any
deployment posts exactly one MEDKIT action and sets `medKitOpened`; once it is set
every `openMedKit` posts nothing, asks nothing and alerts "Already deployed!"; an
unconfirmed call before that only asks and leaves the flag false; no event resets
the flag; in a session from the initial state the first confirmed call deploys,
every later call only alerts, and the requests that deploy number at most one. -/
theorem medkit_is_one_shot :
    (∀ s : State, s.medKitOpened = false →
      step s (Event.openMedKit true) =
        ({ s with medKitOpened := true },
         [Effect.confirm "Deploy Med Kit?",
          Effect.fetch (postJson "/action" [("action", JsonValue.str "MEDKIT")])]) ∧
      ((step s (Event.openMedKit true)).2.filter Effect.isMedKit).length = 1) ∧
    (∀ (s : State) (answer : Bool), s.medKitOpened = true →
      step s (Event.openMedKit answer) = (s, [Effect.alert "Already deployed!"])) ∧
    (∀ s : State, s.medKitOpened = false →
      step s (Event.openMedKit false) = (s, [Effect.confirm "Deploy Med Kit?"])) ∧
    (∀ (s : State) (e : Event), s.medKitOpened = true → (step s e).1.medKitOpened = true) ∧
    (∀ (dom : Dom) (before : List Event), (∀ e ∈ before, e ≠ Event.openMedKit true) →
      (step (run (State.initial dom) before).1 (Event.openMedKit true)).2 =
        [Effect.confirm "Deploy Med Kit?",
         Effect.fetch (postJson "/action" [("action", JsonValue.str "MEDKIT")])] ∧
      (step (run (State.initial dom) before).1 (Event.openMedKit true)).1.medKitOpened = true) ∧
    (∀ (dom : Dom) (before after : List Event) (answer : Bool),
      (step (run (State.initial dom) (before ++ Event.openMedKit true :: after)).1
        (Event.openMedKit answer)).2 = [Effect.alert "Already deployed!"]) ∧
    (∀ (dom : Dom) (es : List Event),
      ((run (State.initial dom) es).2.filter Effect.isMedKit).length ≤ 1) := by
  refine ⟨?_, ?_, ?_, ?_, ?_, ?_, ?_⟩
  · intro s h
    simp [step, openMedKit, h, Effect.isMedKit, postJson]
  · intro s answer h
    simp [step, openMedKit, h]
  · intro s h
    simp [step, openMedKit, h]
  · intro s e h
    rw [medKitOpened_step, h]
    rfl
  · intro dom before hb
    have h := medKitOpened_run_false (State.initial dom) before rfl hb
    simp [step, openMedKit, h]
  · intro dom before after answer
    have h : (run (State.initial dom) (before ++ Event.openMedKit true :: after)).1.medKitOpened
        = true := by
      rw [run_append, run_cons]
      apply medKitOpened_run
      rw [medKitOpened_step]
      simp
    simp [step, openMedKit, h]
  · intro dom es
    exact medKit_requests_run (State.initial dom) es

/-- C6 at a concrete input: in the initial state the flag is false and a confirmed
`openMedKit` asks, posts the one MEDKIT action and sets the flag. -/
theorem medkit_is_one_shot_witness :
    (State.initial Dom.blank).medKitOpened = false ∧
    step (State.initial Dom.blank) (Event.openMedKit true) =
      ({ State.initial Dom.blank with medKitOpened := true },
       [Effect.confirm "Deploy Med Kit?",
        Effect.fetch (postJson "/action" [("action", JsonValue.str "MEDKIT")])]) :=
  ⟨rfl, (medkit_is_one_shot.1 (State.initial Dom.blank) rfl).1⟩

/-- C7: after a reading is applied the alert flags depend on the reading alone,
whatever the page showed before: the fire tile is in alert iff `fire`; the gas tile
iff `gas_level > 30`, strictly — for a finite level iff its value exceeds 30, so
not at 30 and already at 30.5, always for `Infinity`, never for `-Infinity` or
`NaN`; the vibration tile iff `vibration`; the audio tile iff `violence`; and the
critical-alert banner is visible iff `violence`. -/
theorem sensor_alert_flags (data : SensorData) (s : State) :
    ((step s (Event.sensorData data)).1.dom.statFire.alertActive = true ↔ data.fire = true) ∧
    ((step s (Event.sensorData data)).1.dom.statGas.alertActive = true ↔
      (data.gas_level = JsNumber.infinity false ∨
        ∃ q : ℚ, data.gas_level.value = some q ∧ q > 30)) ∧
    (∀ q : ℚ, data.gas_level.value = some q →
      ((step s (Event.sensorData data)).1.dom.statGas.alertActive = true ↔ q > 30)) ∧
    (data.gas_level = JsNumber.infinity true ∨ data.gas_level = JsNumber.nan →
      (step s (Event.sensorData data)).1.dom.statGas.alertActive = false) ∧
    (step s (Event.sensorData { data with gas_level := thirty })).1.dom.statGas.alertActive =
      false ∧
    (step s (Event.sensorData { data with gas_level := thirtyAndHalf })).1.dom.statGas.alertActive
      = true ∧
    ((step s (Event.sensorData data)).1.dom.statVibe.alertActive = true ↔
      data.vibration = true) ∧
    ((step s (Event.sensorData data)).1.dom.statAudio.alertActive = true ↔
      data.violence = true) ∧
    ((step s (Event.sensorData data)).1.dom.criticalHidden = false ↔ data.violence = true) ∧
    (∀ s2 : State,
      (step s2 (Event.sensorData data)).1.dom.statFire.alertActive =
        (step s (Event.sensorData data)).1.dom.statFire.alertActive ∧
      (step s2 (Event.sensorData data)).1.dom.statGas.alertActive =
        (step s (Event.sensorData data)).1.dom.statGas.alertActive ∧
      (step s2 (Event.sensorData data)).1.dom.statVibe.alertActive =
        (step s (Event.sensorData data)).1.dom.statVibe.alertActive ∧
      (step s2 (Event.sensorData data)).1.dom.statAudio.alertActive =
        (step s (Event.sensorData data)).1.dom.statAudio.alertActive ∧
      (step s2 (Event.sensorData data)).1.dom.criticalHidden =
        (step s (Event.sensorData data)).1.dom.criticalHidden) := by
  have hgas : (step s (Event.sensorData data)).1.dom.statGas.alertActive =
      data.gas_level.gt 30 := by simp [step, sensorData]
  refine ⟨?_, ?_, ?_, ?_, ?_, ?_, ?_, ?_, ?_, ?_⟩
  · simp [step, sensorData]
  · rw [hgas]
    exact gt_iff data.gas_level 30
  · intro q hq
    rw [hgas, gt_iff, hq]
    constructor
    · rintro (h | ⟨q1, h1, h2⟩)
      · rw [h] at hq
        simp [JsNumber.value] at hq
      · rw [← Option.some.inj h1] at h2
        exact h2
    · intro h
      exact Or.inr ⟨q, rfl, h⟩
  · rintro (h | h) <;> rw [hgas, h] <;> rfl
  · simp [step, sensorData, thirty_not_gt]
  · simp [step, sensorData, thirtyAndHalf_gt]
  · simp [step, sensorData]
  · cases hv : data.violence <;> simp [step, sensorData, hv]
  · cases hv : data.violence <;> simp [step, sensorData, hv]
  · intro s2
    simp [step, sensorData]

/-- C8 as stated fails: for the reading with `fire` true the fire tile shows the
text with its emoji, not the bare word. -/
theorem fire_text_carries_emoji :
    (step (State.initial Dom.blank) (Event.sensorData fireReading)).1.dom.statFire.text =
      "🔥 ALERT" ∧
    ¬ ((step (State.initial Dom.blank) (Event.sensorData fireReading)).1.dom.statFire.text =
      "ALERT") := by
  decide

/-- C8, amended: after a reading is applied the fire text is "🔥 ALERT" when `fire`
and "SAFE" otherwise, the gas text is the gas level as the language prints a number
(45 as "45", 30.5 as "30.5", 10 ^ 21 as "1e+21") followed by "%", the vibration
text is "⚠️ SHAKING" when `vibration` and "STABLE" otherwise, the audio text is
"🚨 VIOLENCE" when `violence` and "QUIET" otherwise; the two readings of the spec
derive the tiles listed. -/
theorem sensor_texts (data : SensorData) (s : State) :
    (step s (Event.sensorData data)).1.dom.statFire.text =
      (if data.fire then "🔥 ALERT" else "SAFE") ∧
    (step s (Event.sensorData data)).1.dom.statGas.text =
      numberToString data.gas_level ++ "%" ∧
    (step s (Event.sensorData { data with gas_level := thirtyAndHalf })).1.dom.statGas.text =
      "30.5%" ∧
    (step s (Event.sensorData { data with gas_level := tenToThe21 })).1.dom.statGas.text =
      "1e+21%" ∧
    (step s (Event.sensorData data)).1.dom.statVibe.text =
      (if data.vibration then "⚠️ SHAKING" else "STABLE") ∧
    (step s (Event.sensorData data)).1.dom.statAudio.text =
      (if data.violence then "🚨 VIOLENCE" else "QUIET") ∧
    ((step s (Event.sensorData fireReading)).1.dom.statFire = ⟨"🔥 ALERT", true⟩ ∧
      (step s (Event.sensorData fireReading)).1.dom.statGas = ⟨"45%", true⟩ ∧
      (step s (Event.sensorData fireReading)).1.dom.statVibe = ⟨"STABLE", false⟩ ∧
      (step s (Event.sensorData fireReading)).1.dom.statAudio = ⟨"QUIET", false⟩ ∧
      (step s (Event.sensorData fireReading)).1.dom.criticalHidden = true) ∧
    ((step s (Event.sensorData violenceReading)).1.dom.statFire = ⟨"SAFE", false⟩ ∧
      (step s (Event.sensorData violenceReading)).1.dom.statGas = ⟨"10%", false⟩ ∧
      (step s (Event.sensorData violenceReading)).1.dom.statVibe = ⟨"STABLE", false⟩ ∧
      (step s (Event.sensorData violenceReading)).1.dom.statAudio = ⟨"🚨 VIOLENCE", true⟩ ∧
      (step s (Event.sensorData violenceReading)).1.dom.criticalHidden = false) := by
  have h45 : gasText fireReading.gas_level = "45%" := by decide
  have h10 : gasText violenceReading.gas_level = "10%" := by decide
  have h305 : gasText thirtyAndHalf = "30.5%" := by decide
  have h21 : gasText tenToThe21 = "1e+21%" := by decide
  refine ⟨?_, ?_, ?_, ?_, ?_, ?_, ?_, ?_⟩
  · simp [step, sensorData]
  · simp [step, sensorData, gasText]
  · simp [step, sensorData, h305]
  · simp [step, sensorData, h21]
  · simp [step, sensorData]
  · cases hv : data.violence <;> simp [step, sensorData, hv]
  · refine ⟨by simp [step, sensorData, fireReading], ?_, by simp [step, sensorData, fireReading],
      by simp [step, sensorData, fireReading], by simp [step, sensorData, fireReading]⟩
    simp [step, sensorData, h45, fireReading_gt]
  · refine ⟨by simp [step, sensorData, violenceReading], ?_,
      by simp [step, sensorData, violenceReading], by simp [step, sensorData, violenceReading],
      by simp [step, sensorData, violenceReading]⟩
    simp [step, sensorData, h10, violenceReading_not_gt]

/-- C9 as stated fails when the focus is on an input: with `w` held and the focus
then moved onto an input, in MANUAL mode, keydown `w` and keydown `a` are both
ignored, and the keyup of `w` posts `/stop` and leaves no key held, not `a`. -/
theorem keyup_after_ignored_keydowns :
    heldThenTyping.currentMode = Mode.MANUAL ∧
    keyW.val ∈ mappedKeys ∧ keyA.val ∈ mappedKeys ∧ keyW ≠ keyA ∧
    (run heldThenTyping [Event.keydown keyW, Event.keydown keyA, Event.keyup keyW]).2 =
      [Effect.clearHighlight, Effect.fetch (postEmpty "/stop")] ∧
    (run heldThenTyping [Event.keydown keyW, Event.keydown keyA, Event.keyup keyW]).1.activeKey =
      none ∧
    ¬ ((run heldThenTyping
        [Event.keydown keyW, Event.keydown keyA, Event.keyup keyW]).1.activeKey = some keyA) := by
  decide

/-- C9, amended: the keyup of a key that is not the held key (also when no key is
held) changes nothing and issues nothing; so after keydown A, keydown B — A and B
distinct mapped keys, MANUAL mode, the focus outside an input — the keyup of A
leaves B held and posts no `/stop`. -/
theorem keyup_of_other_key_is_noop (s : State) (a b : Key)
    (ha : a.val ∈ mappedKeys) (hb : b.val ∈ mappedKeys) (hab : a ≠ b)
    (hmode : s.currentMode = Mode.MANUAL) (hfocus : s.dom.focusInput = false) :
    (∀ (t : State) (key : Key), t.activeKey ≠ some key → step t (Event.keyup key) = (t, [])) ∧
    (run s [Event.keydown a, Event.keydown b]).1.activeKey = some b ∧
    step (run s [Event.keydown a, Event.keydown b]).1 (Event.keyup a) =
      ((run s [Event.keydown a, Event.keydown b]).1, []) ∧
    (run s [Event.keydown a, Event.keydown b, Event.keyup a]).1.activeKey = some b ∧
    ∀ c ∈ (run (run s [Event.keydown a, Event.keydown b]).1 [Event.keyup a]).2,
      c.isRequestTo "/stop" = false := by
  obtain ⟨da, hda⟩ := keyMap_isSome_of_mapped a ha
  obtain ⟨db, hdb⟩ := keyMap_isSome_of_mapped b hb
  have hheld : (run s [Event.keydown a, Event.keydown b]).1.activeKey = some b := by
    by_cases hheldA : s.activeKey = some a
    · have h1 : step s (Event.keydown a) = (s, []) := keydown_of_repeat s a hheldA
      have hne : s.activeKey ≠ some b := by
        rw [hheldA]; intro h; exact hab (Option.some.inj h)
      have h2 := keydown_accepted s b db hdb hmode hne hfocus
      simp only [run_cons, run_nil, h1]
      show (keydown b s).1.activeKey = some b
      rw [h2]
    · have h1 := keydown_accepted s a da hda hmode hheldA hfocus
      have h1step : step s (Event.keydown a) = _ := h1
      have hne : (step s (Event.keydown a)).1.activeKey ≠ some b := by
        rw [h1step]; intro h; exact hab (Option.some.inj h)
      have h2 := keydown_accepted (step s (Event.keydown a)).1 b db hdb
        (by rw [h1step]; exact hmode) hne (by rw [h1step]; exact hfocus)
      simp only [run_cons, run_nil]
      show (keydown b (step s (Event.keydown a)).1).1.activeKey = some b
      rw [h2]
  have hother : (run s [Event.keydown a, Event.keydown b]).1.activeKey ≠ some a := by
    rw [hheld]; intro h; exact hab (Option.some.inj h).symm
  have hnoop : step (run s [Event.keydown a, Event.keydown b]).1 (Event.keyup a) =
      ((run s [Event.keydown a, Event.keydown b]).1, []) := keyup_of_other _ a hother
  refine ⟨fun t key h => keyup_of_other t key h, hheld, hnoop, ?_, ?_⟩
  · have happ : [Event.keydown a, Event.keydown b, Event.keyup a] =
        [Event.keydown a, Event.keydown b] ++ [Event.keyup a] := rfl
    rw [happ, run_append, run_cons, run_nil, hnoop]
    exact hheld
  · intro c hc
    rw [run_cons, run_nil, hnoop] at hc
    simp at hc

/-- C9, amended, at a concrete input: from the initial state, `w` then `a` pressed,
`w` released: `a` stays held. -/
theorem keyup_of_other_key_is_noop_witness :
    (run (State.initial Dom.blank) [Event.keydown keyW, Event.keydown keyA]).1.activeKey =
      some keyA ∧
    step (run (State.initial Dom.blank) [Event.keydown keyW, Event.keydown keyA]).1
        (Event.keyup keyW) =
      ((run (State.initial Dom.blank) [Event.keydown keyW, Event.keydown keyA]).1, []) :=
  ⟨(keyup_of_other_key_is_noop (State.initial Dom.blank) keyW keyA (by decide) (by decide)
      (by decide) rfl rfl).2.1,
   (keyup_of_other_key_is_noop (State.initial Dom.blank) keyW keyA (by decide) (by decide)
      (by decide) rfl rfl).2.2.1⟩

/-- C10 as stated fails when the panel is already recording: two toggles then post
the statuses "stop" then "start", not "start" then "stop". -/
theorem toggling_twice_while_recording :
    recordingState.isRecording = true ∧
    recordStatuses (run recordingState [Event.toggleRecording, Event.toggleRecording]).2 =
      ["stop", "start"] ∧
    ¬ (recordStatuses (run recordingState [Event.toggleRecording, Event.toggleRecording]).2 =
      ["start", "stop"]) := by
  decide

/-- C10, amended: two consecutive `toggleRecording` calls return `isRecording` to
its value, leave the mode, the held key, `lightsOn` and `medKitOpened` unchanged,
and post exactly two `/record` requests whose statuses alternate: "start" then
"stop" when the panel was not recording, "stop" then "start" when it was. -/
theorem toggle_recording_twice (s : State) :
    (run s [Event.toggleRecording, Event.toggleRecording]).1.isRecording = s.isRecording ∧
    (run s [Event.toggleRecording, Event.toggleRecording]).1.currentMode = s.currentMode ∧
    (run s [Event.toggleRecording, Event.toggleRecording]).1.activeKey = s.activeKey ∧
    (run s [Event.toggleRecording, Event.toggleRecording]).1.lightsOn = s.lightsOn ∧
    (run s [Event.toggleRecording, Event.toggleRecording]).1.medKitOpened = s.medKitOpened ∧
    (run s [Event.toggleRecording, Event.toggleRecording]).2 =
      [Effect.fetch (postJson "/record"
         [("status", JsonValue.str (if s.isRecording then "stop" else "start"))]),
       Effect.fetch (postJson "/record"
         [("status", JsonValue.str (if s.isRecording then "start" else "stop"))])] ∧
    recordStatuses (run s [Event.toggleRecording, Event.toggleRecording]).2 =
      (if s.isRecording then ["stop", "start"] else ["start", "stop"]) := by
  cases h : s.isRecording <;>
    simp [run, step, toggleRecording, h, recordStatuses, postJson]

end EmergencyRobot
